import Mathlib

/-!
Verification of the federated GAN orchestration logic (`gans/tff_gans.py`)
against its natural-language specification.

The development shallowly embeds the Python source:

* `tensor_spec_for_batch` and its helper `_get_tensor_spec` are embedded over
  an inductive type `Batch` of nested dummy batches (named tuples, dicts,
  lists/tuples, and array-like leaves), mirroring `tf.nest.map_structure`,
  `tf.convert_to_tensor` and `tf.TensorSpec(shape=[None] + dims[1:], dtype)`.
* `GanFnsAndTypes.__attrs_post_init__` is embedded as `attrs_post_init`,
  an `Except`-valued function mirroring the validation and derivation order
  of the source (lines 107-149), with Python `TypeError`s as error strings.
* The TFF library calls `tff.aggregators.MeanFactory().create(value_type,
  weight_type)` and `tff.aggregators.DifferentiallyPrivateFactory(query)
  .create(value_type)` are modelled after the TFF aggregator interface the
  source relies on: `MeanFactory` is a weighted aggregation factory (its
  `create` takes a weight type and the resulting process's `next` takes a
  per-client weight argument, computing sum(w_i * v_i) / sum(w_i)), while
  `DifferentiallyPrivateFactory` is an unweighted factory (its `create`
  takes only a value type and the resulting process's `next` takes no
  weight argument).  This is exactly what the source's own comment at
  lines 278-280 records: "weight goes unused here if the aggregation is
  involving Differential Privacy; the underlying AggregationProcess
  doesn't take the parameter, as it just uniformly weights the clients",
  and it is what the `create` call shapes in lines 142-149 show (a
  `weight_type` is passed only in the non-DP branch).
* `run_one_round` and `fed_server_initial_state` are embedded as pure
  functions with the federated placements erased: `federated_broadcast`
  becomes replication across the client list, `federated_map` a zip-map,
  `federated_sum` a fold.  The external collaborators from
  `gan_training_tf_fns.py` (client_computation, server_computation,
  server_initial_state - a different file of the repository, treated as
  opaque step functions by this one) are passed as explicit parameters.
-/

/-! ## Tensors and tensor specs -/

/-- Tensor element dtypes (the fragment needed here). -/
inductive DType where
  | float32
  | float64
  | int32
  | int64
  | boolT
  deriving DecidableEq

/-- A concrete (eager) tensor's type data: dtype and fully known shape.
`shape = []` is a zero-dimensional scalar tensor. -/
structure Tensor where
  dtype : DType
  shape : List Nat
  deriving DecidableEq

/-- `tf.TensorSpec`: dtype plus a shape whose dimensions may be unknown
(`none` models Python `None`, an unbound dimension). -/
structure TensorSpec where
  dtype : DType
  shape : List (Option Nat)
  deriving DecidableEq

/-- A leaf of a dummy batch: either an array-like object that
`tf.convert_to_tensor` converts to the given tensor, or an object whose
conversion raises. -/
inductive PyLeaf where
  | arrayLike (t : Tensor)
  | unconvertible
  deriving DecidableEq

/-- A dummy batch: a leaf or a nest (list/tuple, dict, or named tuple with
string field names), as traversed by `tf.nest.map_structure`. -/
inductive Batch where
  | leaf (v : PyLeaf)
  | listOf (xs : List Batch)
  | dict (fields : List (String × Batch))
  | namedTuple (fields : List (String × Batch))

/-- The result structure of `tensor_spec_for_batch`: the same nest shapes
with `TensorSpec` leaves. -/
inductive Spec where
  | leaf (s : TensorSpec)
  | listOf (xs : List Spec)
  | dict (fields : List (String × Spec))
  | namedTuple (fields : List (String × Spec))

/-- `tf.convert_to_tensor` on a leaf: succeeds on array-likes, raises
(modelled as `none`) otherwise. -/
def convert_to_tensor : PyLeaf → Option Tensor
  | .arrayLike t => some t
  | .unconvertible => none

/-- The inner `_get_tensor_spec` of `tensor_spec_for_batch`:
`tensor = tf.convert_to_tensor(tensor)` then
`tf.TensorSpec(shape=[None] + tensor.shape.dims[1:], dtype=tensor.dtype)`. -/
def get_tensor_spec (v : PyLeaf) : Option TensorSpec :=
  (convert_to_tensor v).map fun t =>
    { dtype := t.dtype, shape := none :: (t.shape.drop 1).map some }

mutual

/-- `tf.nest.map_structure(_get_tensor_spec, ·)`: recurse through the nest,
preserving each container's kind, applying `get_tensor_spec` at leaves;
a raising leaf makes the whole traversal raise (`none`). -/
def mapStructure : Batch → Option Spec
  | .leaf v => (get_tensor_spec v).map Spec.leaf
  | .listOf xs => (mapStructureList xs).map Spec.listOf
  | .dict fs => (mapStructureFields fs).map Spec.dict
  | .namedTuple fs => (mapStructureFields fs).map Spec.namedTuple

def mapStructureList : List Batch → Option (List Spec)
  | [] => some []
  | b :: bs =>
    match mapStructure b, mapStructureList bs with
    | some s, some ss => some (s :: ss)
    | _, _ => none

def mapStructureFields : List (String × Batch) → Option (List (String × Spec))
  | [] => some []
  | (k, b) :: fs =>
    match mapStructure b, mapStructureFields fs with
    | some s, some ss => some ((k, s) :: ss)
    | _, _ => none

end

/-- `tensor_spec_for_batch` (lines 24-39): if the batch has `_asdict`
(a named tuple), first decompose it into a field-keyed mapping, then map
`_get_tensor_spec` over the nest. -/
def tensor_spec_for_batch (dummy_batch : Batch) : Option Spec :=
  match dummy_batch with
  | .namedTuple fs => mapStructure (.dict fs)
  | b => mapStructure b

mutual

/-- All leaves of a batch, in traversal order. -/
def batchLeaves : Batch → List PyLeaf
  | .leaf v => [v]
  | .listOf xs => batchLeavesList xs
  | .dict fs => batchLeavesFields fs
  | .namedTuple fs => batchLeavesFields fs

def batchLeavesList : List Batch → List PyLeaf
  | [] => []
  | b :: bs => batchLeaves b ++ batchLeavesList bs

def batchLeavesFields : List (String × Batch) → List PyLeaf
  | [] => []
  | (_, b) :: fs => batchLeaves b ++ batchLeavesFields fs

end

mutual

/-- All leaves of a derived signature, in traversal order. -/
def specLeaves : Spec → List TensorSpec
  | .leaf s => [s]
  | .listOf xs => specLeavesList xs
  | .dict fs => specLeavesFields fs
  | .namedTuple fs => specLeavesFields fs

def specLeavesList : List Spec → List TensorSpec
  | [] => []
  | s :: ss => specLeaves s ++ specLeavesList ss

def specLeavesFields : List (String × Spec) → List TensorSpec
  | [] => []
  | (_, s) :: fs => specLeaves s ++ specLeavesFields fs

end

mutual

/-- A valid dummy batch in the sense of the spec: every leaf is array-like
and has at least one dimension. -/
def validBatch : Batch → Bool
  | .leaf (.arrayLike t) => !t.shape.isEmpty
  | .leaf .unconvertible => false
  | .listOf xs => validBatchList xs
  | .dict fs => validBatchFields fs
  | .namedTuple fs => validBatchFields fs

def validBatchList : List Batch → Bool
  | [] => true
  | b :: bs => validBatch b && validBatchList bs

def validBatchFields : List (String × Batch) → Bool
  | [] => true
  | (_, b) :: fs => validBatch b && validBatchFields fs

end

mutual

/-- Whether the batch contains a leaf on which `tf.convert_to_tensor`
raises. -/
def hasUnconvertibleLeaf : Batch → Bool
  | .leaf (.arrayLike _) => false
  | .leaf .unconvertible => true
  | .listOf xs => hasUnconvertibleLeafList xs
  | .dict fs => hasUnconvertibleLeafFields fs
  | .namedTuple fs => hasUnconvertibleLeafFields fs

def hasUnconvertibleLeafList : List Batch → Bool
  | [] => false
  | b :: bs => hasUnconvertibleLeaf b || hasUnconvertibleLeafList bs

def hasUnconvertibleLeafFields : List (String × Batch) → Bool
  | [] => false
  | (_, b) :: fs => hasUnconvertibleLeaf b || hasUnconvertibleLeafFields fs

end

/-- Correspondence between an input leaf and its derived spec, as the spec
phrases it: the leaf was array-like, the dtypes match, the shapes match in
length, the leading output dimension is unbound, and the remaining output
dimensions are exactly the input dimensions after the first. -/
def leafSpecOk (v : PyLeaf) (sp : TensorSpec) : Prop :=
  ∃ t, v = .arrayLike t ∧ sp.dtype = t.dtype ∧
    sp.shape.length = t.shape.length ∧
    sp.shape.head? = some none ∧
    sp.shape.tail = t.shape.tail.map some

/-! ## TFF types and the aggregation factories -/

/-- The fragment of `tff.Type` needed for the aggregation process's value
and weight types. -/
inductive TffType where
  | tensorType (dtype : DType) (shape : List (Option Nat))
  | structOf (elems : List TffType)

/-- `tff.to_type(tf.float32)`: a scalar float32 tensor type (the
`weight_type` passed to `MeanFactory.create` at line 149). -/
def float32_type : TffType := .tensorType .float32 []

/-- `tff.to_type` of a flat structure of `tf.TensorSpec`s (the model
weight signatures fed to `create` as `value_type`). -/
def tff_to_type (ts : List TensorSpec) : TffType :=
  .structOf (ts.map fun s => .tensorType s.dtype s.shape)

/-- Federated placements. -/
inductive Placement where
  | server
  | clients
  deriving DecidableEq

/-- `tff.type_at_clients(tff.SequenceType(elem))` /
`tff.type_at_server(tff.SequenceType(elem))` (lines 135-140). -/
structure FederatedSequenceType where
  placement : Placement
  element : Spec

/-- The descriptor of the `tff.templates.AggregationProcess` selected at
construction time (lines 142-149): its weightedness, its value type, its
weight type when it has one, and the privacy query it carries when it is
the differentially-private one.  `Q` is the (arbitrary, uninspected) type
of the supplied query object. -/
structure AggregationProcessDesc (Q : Type) where
  is_weighted : Bool
  value_type : TffType
  weight_type : Option TffType
  dp_query : Option Q

/-- Model of `tff.aggregators.MeanFactory().create(value_type, weight_type)`:
`MeanFactory` is a weighted aggregation factory, so the process it creates
is weighted and carries both types. -/
def MeanFactory_create (value_type weight_type : TffType) :
    AggregationProcessDesc Q :=
  { is_weighted := true, value_type := value_type,
    weight_type := some weight_type, dp_query := none }

/-- Model of
`tff.aggregators.DifferentiallyPrivateFactory(query).create(value_type)`:
`DifferentiallyPrivateFactory` is an unweighted aggregation factory, so
the process it creates is unweighted, has no weight type, and carries the
query it was handed (which `GanFnsAndTypes` passes along uninspected). -/
def DifferentiallyPrivateFactory_create (query : Q) (value_type : TffType) :
    AggregationProcessDesc Q :=
  { is_weighted := false, value_type := value_type,
    weight_type := none, dp_query := some query }

/-! ## The GanFnsAndTypes training context -/

/-- The object returned by a model factory, as `__attrs_post_init__`
observes it: its Python type name, whether calling it on the dummy input
succeeds (`self._generator(self.dummy_gen_input)` at line 113 raises a
`TypeError` on a non-callable), whether it is an instance of
`tf.keras.models.Model`, and its `weights` variable list (each variable's
`read_value()` observed as a concrete tensor). -/
structure PyObject where
  typeName : String
  callable : Bool
  isKerasModel : Bool
  weights : List Tensor

/-- The `__init__` arguments of `GanFnsAndTypes` (lines 55-81).  `Q` is
the type of the optional privacy query; it is deliberately an arbitrary
type parameter because `attr.ib(type=tensorflow_privacy.DPQuery)` records
the annotation for introspection only and attrs performs no validation
(no `validator=` is given), so any object whatsoever is accepted.  The
opaque training-step members (`train_generator_fn`,
`train_discriminator_fn`, `server_disc_update_optimizer_fn`) are never
read by `__attrs_post_init__`; they are consumed only by the computation
builders, which are modelled below with those functions passed as
explicit parameters. -/
structure GanFnsAndTypesInit (Q : Type) where
  generator_model_fn : Unit → PyObject
  discriminator_model_fn : Unit → PyObject
  dummy_gen_input : Batch
  dummy_real_data : Batch
  train_discriminator_dp_average_query : Option Q := none

/-- The fully derived `GanFnsAndTypes` fields set by
`__attrs_post_init__` (lines 83-105 declare them, 107-149 fill them). -/
structure GanFnsAndTypes (Q : Type) where
  gen_input_type : Spec
  real_data_type : Spec
  generator : PyObject
  discriminator : PyObject
  discriminator_weights_type : List TensorSpec
  generator_weights_type : List TensorSpec
  from_server_type : List TensorSpec × List TensorSpec
  client_gen_input_type : FederatedSequenceType
  client_real_data_type : FederatedSequenceType
  server_gen_input_type : FederatedSequenceType
  aggregation_process : AggregationProcessDesc Q

/-- `vars_to_type` (lines 123-126): map
`tf.TensorSpec.from_tensor(v.read_value())` over the weights; the spec of
a concrete tensor has its full shape known. -/
def vars_to_type (var_struct : List Tensor) : List TensorSpec :=
  var_struct.map fun t => { dtype := t.dtype, shape := t.shape.map some }

/-- Error message of `tf.convert_to_tensor` raising on a dummy-batch leaf
(the exact Python text varies by input; only the fact of failure matters
here). -/
def convert_error_msg : String :=
  "TypeError: failed to convert value to a tensor"

/-- Python error for calling a non-callable object (raised at line 113 or
118 before the isinstance check when the factory result is not callable;
Python quoting of the type name omitted). -/
def not_callable_msg (typeName : String) : String :=
  "TypeError: " ++ typeName ++ " object is not callable"

/-- The `TypeError` raised at lines 115-116 and 120-121:
`'Expected `tf.keras.models.Model`, found {}.'.format(type(...))`.
Note the message reports only the found type; it is the same string
whichever factory produced the offending object (backticks and Python
class quoting omitted). -/
def expected_model_msg (typeName : String) : String :=
  "TypeError: Expected tf.keras.models.Model, found " ++ typeName ++ "."

/-- The `.ok` payload of a successful `__attrs_post_init__`, given the
already-derived input element types (lines 108-149 in source order):
models are instantiated once, weight types read off them
(discriminator first, line 128, then generator, line 129), the
`FromServer` type composed, the federated sequence types wrapped, and the
aggregation process selected by the presence of the privacy query. -/
def derive_types (cfg : GanFnsAndTypesInit Q)
    (gen_input_type real_data_type : Spec) : GanFnsAndTypes Q :=
  let generator := cfg.generator_model_fn ()
  let discriminator := cfg.discriminator_model_fn ()
  let discriminator_weights_type := vars_to_type discriminator.weights
  let generator_weights_type := vars_to_type generator.weights
  { gen_input_type := gen_input_type
    real_data_type := real_data_type
    generator := generator
    discriminator := discriminator
    discriminator_weights_type := discriminator_weights_type
    generator_weights_type := generator_weights_type
    from_server_type := (generator_weights_type, discriminator_weights_type)
    client_gen_input_type := ⟨.clients, gen_input_type⟩
    client_real_data_type := ⟨.clients, real_data_type⟩
    server_gen_input_type := ⟨.server, gen_input_type⟩
    aggregation_process :=
      match cfg.train_discriminator_dp_average_query with
      | some q =>
        DifferentiallyPrivateFactory_create q
          (tff_to_type discriminator_weights_type)
      | none =>
        MeanFactory_create (tff_to_type discriminator_weights_type)
          float32_type }

/-- `GanFnsAndTypes.__attrs_post_init__` (lines 107-149): derive the
element types from the dummy batches, instantiate and validate one
generator and one discriminator (each must be callable on its dummy input
and be a `tf.keras.models.Model`), then derive all remaining types and
select the aggregation process.  Failures are the Python exceptions, in
source order. -/
def attrs_post_init (cfg : GanFnsAndTypesInit Q) :
    Except String (GanFnsAndTypes Q) :=
  match tensor_spec_for_batch cfg.dummy_gen_input with
  | none => .error convert_error_msg
  | some gen_input_type =>
    match tensor_spec_for_batch cfg.dummy_real_data with
    | none => .error convert_error_msg
    | some real_data_type =>
      let generator := cfg.generator_model_fn ()
      if generator.callable = false then
        .error (not_callable_msg generator.typeName)
      else if generator.isKerasModel = false then
        .error (expected_model_msg generator.typeName)
      else
        let discriminator := cfg.discriminator_model_fn ()
        if discriminator.callable = false then
          .error (not_callable_msg discriminator.typeName)
        else if discriminator.isKerasModel = false then
          .error (expected_model_msg discriminator.typeName)
        else
          .ok (derive_types cfg gen_input_type real_data_type)

/-- A well-configured context: both dummy batches derive element types and
both factories return callable `tf.keras.models.Model` instances. -/
def validCfg (cfg : GanFnsAndTypesInit Q) : Prop :=
  (tensor_spec_for_batch cfg.dummy_gen_input).isSome = true ∧
  (tensor_spec_for_batch cfg.dummy_real_data).isSome = true ∧
  (cfg.generator_model_fn ()).callable = true ∧
  (cfg.generator_model_fn ()).isKerasModel = true ∧
  (cfg.discriminator_model_fn ()).callable = true ∧
  (cfg.discriminator_model_fn ()).isKerasModel = true

/-! ## Aggregation process semantics

The value being aggregated (`discriminator_weights_delta`) is a structure
of tensors; its numeric content is modelled as a flat vector of rationals
(exact arithmetic in place of float32). -/

/-- A client delta: one rational per discriminator weight entry. -/
abbrev Vec := List ℚ

/-- Elementwise addition of two equally shaped deltas. -/
def vadd (a b : Vec) : Vec := List.zipWith (· + ·) a b

/-- Scalar multiplication of a delta. -/
def vsmul (c : ℚ) (v : Vec) : Vec := v.map fun x => c * x

/-- `federated_sum` of a nonempty set of client deltas (elementwise). -/
def vsum : List Vec → Vec
  | [] => []
  | [v] => v
  | v :: vs => vadd v (vsum vs)

/-- Sum of the per-client weights. -/
def total_weight (ws : List ℚ) : ℚ := ws.foldr (· + ·) 0

/-- The weighted mean computed by the process `MeanFactory` creates:
each client's value is multiplied by its weight, the products are summed,
and the sum is divided by the total weight. -/
def weighted_mean (vals : List Vec) (ws : List ℚ) : Vec :=
  vsmul (total_weight ws)⁻¹ (vsum (List.zipWith vsmul ws vals))

/-- The plain arithmetic mean of the client deltas. -/
def arithmetic_mean (vals : List Vec) : Vec :=
  vsmul ((vals.length : ℚ))⁻¹ (vsum vals)

/-- `next` of the mean aggregation process: stateless, returns the
weighted mean. -/
def mean_next (st : Unit) (vals : List Vec) (ws : List ℚ) : Unit × Vec :=
  (st, weighted_mean vals ws)

/-- The `DPQuery` strategy interface the source docstring points to
(tensorflow_privacy `dp_query.py`): an opaque global state, per-sample
parameters, a per-record preprocessing step (clipping), and a noised
finalisation.  All fields are opaque functions; nothing in this
repository inspects them. -/
structure DPQuerySem (σ π : Type) where
  initial_global_state : σ
  derive_sample_params : σ → π
  initial_sample_state : Vec
  preprocess_record : π → Vec → Vec
  get_noised_result : Vec → σ → Vec × σ

/-- `next` of the differentially-private aggregation process: derive the
sample parameters from the global state, preprocess (clip) every client
record, sum them, and produce the noised result plus new state.  No
per-client weight is consumed: clients are uniformly weighted. -/
def dp_next (q : DPQuerySem σ π) (st : σ) (vals : List Vec) : σ × Vec :=
  let params := q.derive_sample_params st
  let sample := (vals.map (q.preprocess_record params)).foldr vadd
    q.initial_sample_state
  let rs := q.get_noised_result sample st
  (rs.2, rs.1)

/-- A `tff.templates.AggregationProcess` over state `σ` and value `Δ`,
as `run_one_round` consumes it: either a weighted process, whose `next`
takes `(state, value, weight)`, or an unweighted one, whose `next` takes
`(state, value)`.  `is_weighted` is the property TFF derives from the
arity of `next`. -/
inductive AggProcess (σ Δ : Type) where
  | weighted (init : σ) (next : σ → List Δ → List ℚ → σ × Δ)
  | unweighted (init : σ) (next : σ → List Δ → σ × Δ)

/-- The `is_weighted` flag of the process (true exactly when `next` takes
a weight parameter). -/
def AggProcess.is_weighted : AggProcess σ Δ → Bool
  | .weighted _ _ => true
  | .unweighted _ _ => false

/-- `aggregation_process.initialize()`. -/
def AggProcess.init_state : AggProcess σ Δ → σ
  | .weighted i _ => i
  | .unweighted i _ => i

/-- Calling `aggregation_process.next` with (`some`) or without (`none`)
a weight argument.  Passing a weight to an unweighted process, or
omitting it on a weighted one, is a Python arity `TypeError`. -/
def AggProcess.call_next (p : AggProcess σ Δ) (st : σ) (vals : List Δ) :
    Option (List ℚ) → Except String (σ × Δ)
  | some ws =>
    match p with
    | .weighted _ next => .ok (next st vals ws)
    | .unweighted _ _ =>
      .error "TypeError: next takes 2 positional arguments but 3 were given"
  | none =>
    match p with
    | .weighted _ _ =>
      .error "TypeError: next missing 1 required positional argument"
    | .unweighted _ next => .ok (next st vals)

/-- The aggregation call of `run_one_round` (lines 281-289): inspect
`is_weighted`; pass `client_outputs.update_weight` exactly when it is
true, omit the argument when it is false. -/
def aggregation_step (p : AggProcess σ Δ) (st : σ) (vals : List Δ)
    (ws : List ℚ) : Except String (σ × Δ) :=
  if p.is_weighted then p.call_next st vals (some ws)
  else p.call_next st vals none

/-- The semantics of the process `MeanFactory().create(...)` returns:
a weighted process with trivial state. -/
def mean_process : AggProcess Unit Vec := .weighted () mean_next

/-- The semantics of the process
`DifferentiallyPrivateFactory(query).create(...)` returns: an unweighted
process whose state is the query's global state. -/
def dp_process (q : DPQuerySem σ π) : AggProcess σ Vec :=
  .unweighted q.initial_global_state (dp_next q)

/-- The runtime counterpart of the selection at lines 142-149: with a
query, the differentially-private unweighted process; without one, the
weighted mean process (packaged with its state type). -/
def selected_process (query : Option (DPQuerySem σ π)) :
    (σ' : Type) × AggProcess σ' Vec :=
  match query with
  | some q => ⟨σ, dp_process q⟩
  | none => ⟨Unit, mean_process⟩

/-! ## The federated round state machine -/

/-- `gan_training_tf_fns.ServerState`: generator weights, discriminator
weights, counters, and the aggregation-process state. -/
structure ServerState (G D C A : Type) where
  generator_weights : G
  discriminator_weights : D
  counters : C
  aggregation_state : A

/-- `gan_training_tf_fns.FromServer`: the broadcast payload, exactly the
two weight structures. -/
structure FromServer (G D : Type) where
  generator_weights : G
  discriminator_weights : D
  deriving DecidableEq

/-- `gan_training_tf_fns.ClientOutput` (also reused for the aggregated
output): the discriminator delta, the scalar update weight, and the
counters. -/
structure ClientOutput (Δ C : Type) where
  discriminator_weights_delta : Δ
  update_weight : ℚ
  counters : C

/-- `tff.federated_broadcast`: every one of the `n` clients receives the
same server value. -/
def federated_broadcast (v : α) (n : Nat) : List α := List.replicate n v

/-- `tff.federated_sum` over the clients' values. -/
def federated_sum [Add α] [Zero α] (xs : List α) : α :=
  xs.foldr (· + ·) 0

/-- `tff.federated_map` of a three-argument computation over three zipped
client-placed values. -/
def federated_map3 (f : α → β → γ → δ) :
    List α → List β → List γ → List δ
  | a :: as, b :: bs, c :: cs => f a b c :: federated_map3 f as bs cs
  | _, _, _ => []

/-- Line 271-273 of `run_one_round`: the `FromServer` payload extracted
from the server state. -/
def round_from_server (ss : ServerState G D C A) : FromServer G D :=
  { generator_weights := ss.generator_weights,
    discriminator_weights := ss.discriminator_weights }

/-- Line 274: `client_input = tff.federated_broadcast(from_server)`,
for a cohort of `n` clients. -/
def round_client_inputs (ss : ServerState G D C A) (n : Nat) :
    List (FromServer G D) :=
  federated_broadcast (round_from_server ss) n

/-- Lines 275-276: map the client computation over every client's paired
gen-input stream, real-data stream, and broadcast payload. -/
def round_client_outputs
    (client_computation : GIn → RD → FromServer G D → ClientOutput Δ C)
    (ss : ServerState G D C A)
    (client_gen_inputs : List GIn) (client_real_data : List RD) :
    List (ClientOutput Δ C) :=
  federated_map3 client_computation client_gen_inputs client_real_data
    (round_client_inputs ss client_gen_inputs.length)

/-- `run_one_round` (lines 268-311) with placements erased: broadcast the
weights, run every client, aggregate the discriminator deltas through the
aggregation process (weights passed exactly when the process is
weighted), sum the update weights and counters, and apply the server
computation.  The external `client_computation` and `server_computation`
wrappers (lines 185-198, 219-234, thin wrappers around
`gan_training_tf_fns`) are opaque parameters. -/
def run_one_round [Add C] [Zero C] (p : AggProcess σ Δ)
    (client_computation : GIn → RD → FromServer G D → ClientOutput Δ C)
    (server_computation :
      ServerState G D C σ → SGIn → ClientOutput Δ C → σ → ServerState G D C σ)
    (server_state : ServerState G D C σ) (server_gen_inputs : SGIn)
    (client_gen_inputs : List GIn) (client_real_data : List RD) :
    Except String (ServerState G D C σ) :=
  let client_outputs := round_client_outputs client_computation server_state
    client_gen_inputs client_real_data
  match aggregation_step p server_state.aggregation_state
      (client_outputs.map fun c => c.discriminator_weights_delta)
      (client_outputs.map fun c => c.update_weight) with
  | .error e => .error e
  | .ok out =>
    let aggregated_client_output : ClientOutput Δ C :=
      { discriminator_weights_delta := out.2,
        update_weight := federated_sum
          (client_outputs.map fun c => c.update_weight),
        counters := federated_sum (client_outputs.map fun c => c.counters) }
    .ok (server_computation server_state server_gen_inputs
      aggregated_client_output out.1)

/-- `fed_server_initial_state` (lines 253-262): evaluate the
server-initial-state computation (which instantiates fresh models via the
factories and delegates to the external
`gan_training_tf_fns.server_initial_state`, lines 164-170), then rebuild
the `ServerState` keeping its generator weights, discriminator weights
and counters and installing `aggregation_process.initialize()` as the
aggregation state. -/
def fed_server_initial_state
    (generator_model_fn discriminator_model_fn : Unit → PyObject)
    (server_initial_state :
      PyObject → PyObject → ServerState G D C A₀)
    (p : AggProcess σ Δ) : ServerState G D C σ :=
  let state := server_initial_state (generator_model_fn ())
    (discriminator_model_fn ())
  { generator_weights := state.generator_weights,
    discriminator_weights := state.discriminator_weights,
    counters := state.counters,
    aggregation_state := p.init_state }

/-! ## Concrete example data (used by witnesses and counterexamples) -/

/-- A typical valid dummy batch: a dict with a rank-3 image leaf and a
rank-1 label leaf (leading dimension 32 is the batch size). -/
def example_batch : Batch :=
  .dict [("images", .leaf (.arrayLike ⟨.float32, [32, 28, 28]⟩)),
         ("labels", .leaf (.arrayLike ⟨.int32, [32]⟩))]

/-- The signature `tensor_spec_for_batch` derives for `example_batch`. -/
def example_batch_spec : Spec :=
  .dict [("images", .leaf ⟨.float32, [none, some 28, some 28]⟩),
         ("labels", .leaf ⟨.int32, [none]⟩)]

/-- Fields of a named-tuple dummy batch. -/
def example_named_tuple_fields : List (String × Batch) :=
  [("gen_input", .leaf (.arrayLike ⟨.float32, [16, 64]⟩)),
   ("noise", .leaf (.arrayLike ⟨.float32, [16, 8]⟩))]

/-- The per-field signatures derived for `example_named_tuple_fields`. -/
def example_named_tuple_out : List (String × Spec) :=
  [("gen_input", .leaf ⟨.float32, [none, some 64]⟩),
   ("noise", .leaf ⟨.float32, [none, some 8]⟩)]

/-- A batch that is a single zero-dimensional scalar leaf. -/
def scalar_batch : Batch := .leaf (.arrayLike ⟨.float32, []⟩)

/-- A batch one of whose leaves cannot be converted to a tensor. -/
def unconvertible_batch : Batch :=
  .dict [("data", .leaf (.arrayLike ⟨.float32, [4, 2]⟩)),
         ("bad", .leaf .unconvertible)]

/-- A factory result that is a callable `tf.keras.models.Model`. -/
def keras_model_obj : PyObject :=
  { typeName := "Functional", callable := true, isKerasModel := true,
    weights := [⟨.float32, [64, 10]⟩, ⟨.float32, [10]⟩] }

/-- A factory result that is callable but not a `tf.keras.models.Model`
(e.g. a plain Python function). -/
def non_model_obj : PyObject :=
  { typeName := "function", callable := true, isKerasModel := false,
    weights := [] }

/-- A well-formed configuration with no privacy query.  The query type is
instantiated at `Nat` to stress that nothing constrains it. -/
def base_cfg : GanFnsAndTypesInit Nat :=
  { generator_model_fn := fun _ => keras_model_obj,
    discriminator_model_fn := fun _ => keras_model_obj,
    dummy_gen_input := example_batch,
    dummy_real_data := example_batch,
    train_discriminator_dp_average_query := none }

/-- The same configuration with a "privacy query" that is just the
number 7 - an object satisfying no query interface whatsoever. -/
def dp_cfg : GanFnsAndTypesInit Nat :=
  { base_cfg with train_discriminator_dp_average_query := some 7 }

/-- `base_cfg` with a generator factory returning a non-model. -/
def bad_generator_cfg : GanFnsAndTypesInit Nat :=
  { base_cfg with generator_model_fn := fun _ => non_model_obj }

/-- `base_cfg` with a discriminator factory returning a non-model. -/
def bad_discriminator_cfg : GanFnsAndTypesInit Nat :=
  { base_cfg with discriminator_model_fn := fun _ => non_model_obj }

/-- A well-formed configuration whose "privacy query" is a plain string,
an object implementing no part of the DPQuery interface. -/
def string_query_cfg : GanFnsAndTypesInit String :=
  { generator_model_fn := fun _ => keras_model_obj,
    discriminator_model_fn := fun _ => keras_model_obj,
    dummy_gen_input := example_batch,
    dummy_real_data := example_batch,
    train_discriminator_dp_average_query := some ("not a DPQuery at all") }

/-! ## Helper lemmas: the type deriver on valid batches -/

mutual

theorem mapStructure_valid (b : Batch) (h : validBatch b = true) :
    ∃ s, mapStructure b = some s ∧
      List.Forall₂ leafSpecOk (batchLeaves b) (specLeaves s) :=
  match b, h with
  | .leaf (.arrayLike ⟨d, dim0 :: rest⟩), _ =>
    ⟨.leaf ⟨d, none :: rest.map some⟩, rfl, by
      refine List.Forall₂.cons ?_ List.Forall₂.nil
      exact ⟨⟨d, dim0 :: rest⟩, rfl, rfl, by simp, rfl, rfl⟩⟩
  | .leaf (.arrayLike ⟨_, []⟩), h => by simp [validBatch] at h
  | .leaf .unconvertible, h => by simp [validBatch] at h
  | .listOf xs, h => by
    have hx : validBatchList xs = true := by simpa [validBatch] using h
    obtain ⟨ss, hss, hfa⟩ := mapStructureList_valid xs hx
    exact ⟨.listOf ss, by simp [mapStructure, hss],
      by simpa [batchLeaves, specLeaves] using hfa⟩
  | .dict fs, h => by
    have hx : validBatchFields fs = true := by simpa [validBatch] using h
    obtain ⟨out, hout, hfa⟩ := mapStructureFields_valid fs hx
    exact ⟨.dict out, by simp [mapStructure, hout],
      by simpa [batchLeaves, specLeaves] using hfa⟩
  | .namedTuple fs, h => by
    have hx : validBatchFields fs = true := by simpa [validBatch] using h
    obtain ⟨out, hout, hfa⟩ := mapStructureFields_valid fs hx
    exact ⟨.namedTuple out, by simp [mapStructure, hout],
      by simpa [batchLeaves, specLeaves] using hfa⟩

theorem mapStructureList_valid (bs : List Batch)
    (h : validBatchList bs = true) :
    ∃ ss, mapStructureList bs = some ss ∧
      List.Forall₂ leafSpecOk (batchLeavesList bs) (specLeavesList ss) :=
  match bs, h with
  | [], _ => ⟨[], rfl, List.Forall₂.nil⟩
  | b :: bs, h => by
    simp only [validBatchList, Bool.and_eq_true] at h
    obtain ⟨s, hs, hfa1⟩ := mapStructure_valid b h.1
    obtain ⟨ss, hss, hfa2⟩ := mapStructureList_valid bs h.2
    refine ⟨s :: ss, by simp [mapStructureList, hs, hss], ?_⟩
    simpa [batchLeavesList, specLeavesList] using List.rel_append hfa1 hfa2

theorem mapStructureFields_valid (fs : List (String × Batch))
    (h : validBatchFields fs = true) :
    ∃ out, mapStructureFields fs = some out ∧
      List.Forall₂ leafSpecOk (batchLeavesFields fs) (specLeavesFields out) :=
  match fs, h with
  | [], _ => ⟨[], rfl, List.Forall₂.nil⟩
  | (k, b) :: fs, h => by
    simp only [validBatchFields, Bool.and_eq_true] at h
    obtain ⟨s, hs, hfa1⟩ := mapStructure_valid b h.1
    obtain ⟨out, hout, hfa2⟩ := mapStructureFields_valid fs h.2
    refine ⟨(k, s) :: out, by simp [mapStructureFields, hs, hout], ?_⟩
    simpa [batchLeavesFields, specLeavesFields] using List.rel_append hfa1 hfa2

end

mutual

theorem mapStructure_unconv (b : Batch)
    (h : hasUnconvertibleLeaf b = true) : mapStructure b = none :=
  match b, h with
  | .leaf .unconvertible, _ => rfl
  | .leaf (.arrayLike _), h => by simp [hasUnconvertibleLeaf] at h
  | .listOf xs, h => by
    have hx : hasUnconvertibleLeafList xs = true := by
      simpa [hasUnconvertibleLeaf] using h
    simp [mapStructure, mapStructureList_unconv xs hx]
  | .dict fs, h => by
    have hx : hasUnconvertibleLeafFields fs = true := by
      simpa [hasUnconvertibleLeaf] using h
    simp [mapStructure, mapStructureFields_unconv fs hx]
  | .namedTuple fs, h => by
    have hx : hasUnconvertibleLeafFields fs = true := by
      simpa [hasUnconvertibleLeaf] using h
    simp [mapStructure, mapStructureFields_unconv fs hx]

theorem mapStructureList_unconv (bs : List Batch)
    (h : hasUnconvertibleLeafList bs = true) : mapStructureList bs = none :=
  match bs, h with
  | [], h => by simp [hasUnconvertibleLeafList] at h
  | b :: bs, h => by
    simp only [hasUnconvertibleLeafList, Bool.or_eq_true] at h
    rcases h with h1 | h2
    · simp [mapStructureList, mapStructure_unconv b h1]
    · cases hs : mapStructure b <;>
        simp [mapStructureList, hs, mapStructureList_unconv bs h2]

theorem mapStructureFields_unconv (fs : List (String × Batch))
    (h : hasUnconvertibleLeafFields fs = true) :
    mapStructureFields fs = none :=
  match fs, h with
  | [], h => by simp [hasUnconvertibleLeafFields] at h
  | (k, b) :: fs, h => by
    simp only [hasUnconvertibleLeafFields, Bool.or_eq_true] at h
    rcases h with h1 | h2
    · simp [mapStructureFields, mapStructure_unconv b h1]
    · cases hs : mapStructure b <;>
        simp [mapStructureFields, hs, mapStructureFields_unconv fs h2]

end

/-- Successful field-wise derivation preserves the field names and maps
each field's sub-batch through `mapStructure`. -/
theorem mapStructureFields_names (fs : List (String × Batch)) :
    ∀ out, mapStructureFields fs = some out →
      out.map Prod.fst = fs.map Prod.fst ∧
      List.Forall₂ (fun p q => mapStructure p.2 = some q.2) fs out := by
  induction fs with
  | nil =>
    intro out h
    simp [mapStructureFields] at h
    subst h
    exact ⟨rfl, List.Forall₂.nil⟩
  | cons f fs ih =>
    intro out h
    obtain ⟨k, b⟩ := f
    rw [mapStructureFields] at h
    cases hs : mapStructure b with
    | none => rw [hs] at h; simp at h
    | some s =>
      rw [hs] at h
      cases hout : mapStructureFields fs with
      | none => rw [hout] at h; simp at h
      | some rest =>
        rw [hout] at h
        simp at h
        subst h
        obtain ⟨hn, hfa⟩ := ih rest hout
        exact ⟨by simp [hn], List.Forall₂.cons hs hfa⟩

/-! ## Helper lemmas: weighted mean arithmetic -/

theorem vsmul_vadd (c : ℚ) (a b : Vec) :
    vsmul c (vadd a b) = vadd (vsmul c a) (vsmul c b) := by
  induction a generalizing b with
  | nil => simp [vsmul, vadd]
  | cons x xs ih =>
    cases b with
    | nil => simp [vsmul, vadd]
    | cons y ys =>
      have h := ih ys
      simp only [vsmul, vadd, List.zipWith_cons_cons, List.map_cons] at h ⊢
      rw [mul_add, h]

theorem vsum_map_vsmul (c : ℚ) (vs : List Vec) :
    vsum (vs.map (vsmul c)) = vsmul c (vsum vs) := by
  induction vs with
  | nil => simp [vsum, vsmul]
  | cons v vs ih =>
    cases vs with
    | nil => simp [vsum]
    | cons w ws =>
      simp only [List.map_cons, vsum] at ih ⊢
      rw [ih, vsmul_vadd]

theorem zipWith_vsmul_replicate (w : ℚ) (vals : List Vec) :
    List.zipWith vsmul (List.replicate vals.length w) vals
      = vals.map (vsmul w) := by
  induction vals with
  | nil => rfl
  | cons v vs ih => simp [List.replicate_succ, ih]

theorem total_weight_replicate (m : Nat) (w : ℚ) :
    total_weight (List.replicate m w) = m * w := by
  induction m with
  | zero => simp [total_weight]
  | succ n ih =>
    have : total_weight (List.replicate (n + 1) w)
        = w + total_weight (List.replicate n w) := rfl
    rw [this, ih]
    push_cast
    ring

theorem vsmul_vsmul (a b : ℚ) (v : Vec) :
    vsmul a (vsmul b v) = vsmul (a * b) v := by
  induction v with
  | nil => rfl
  | cons x xs ih =>
    simp only [vsmul, List.map_cons] at ih ⊢
    rw [ih, mul_assoc]

/-- With uniform nonzero weights, the weighted mean computed by the mean
aggregation process is the arithmetic mean of the client deltas. -/
theorem weighted_mean_uniform (vals : List Vec) (w : ℚ) (hw : w ≠ 0) :
    weighted_mean vals (List.replicate vals.length w)
      = arithmetic_mean vals := by
  unfold weighted_mean arithmetic_mean
  rw [zipWith_vsmul_replicate, vsum_map_vsmul, total_weight_replicate,
    vsmul_vsmul]
  congr 1
  rw [mul_inv, mul_assoc, inv_mul_cancel₀ hw, mul_one]

/-! ## Helper lemma: successful construction -/

/-- On a well-formed configuration, `__attrs_post_init__` runs to
completion and populates the derived fields as `derive_types` records. -/
theorem attrs_post_init_ok (cfg : GanFnsAndTypesInit Q) (s1 s2 : Spec)
    (h1 : tensor_spec_for_batch cfg.dummy_gen_input = some s1)
    (h2 : tensor_spec_for_batch cfg.dummy_real_data = some s2)
    (hgc : (cfg.generator_model_fn ()).callable = true)
    (hgk : (cfg.generator_model_fn ()).isKerasModel = true)
    (hdc : (cfg.discriminator_model_fn ()).callable = true)
    (hdk : (cfg.discriminator_model_fn ()).isKerasModel = true) :
    attrs_post_init cfg = .ok (derive_types cfg s1 s2) := by
  unfold attrs_post_init
  rw [h1, h2]
  simp [hgc, hgk, hdc, hdk]

/-! ## Claim theorems -/

/-- C5: for every valid dummy batch (a record or nested collection of
array-like leaves each with at least one dimension),
`tensor_spec_for_batch` returns a signature in which every leaf's dtype
equals the corresponding input leaf's dtype and every leaf's shape equals
the input leaf's shape except the leading dimension, which is unbound
(`None`). -/
theorem tensor_spec_for_batch_valid_spec (b : Batch)
    (h : validBatch b = true) :
    ∃ s, tensor_spec_for_batch b = some s ∧
      List.Forall₂ leafSpecOk (batchLeaves b) (specLeaves s) := by
  match b with
  | .leaf v =>
    exact mapStructure_valid (.leaf v) h
  | .listOf xs =>
    exact mapStructure_valid (.listOf xs) h
  | .dict fs =>
    exact mapStructure_valid (.dict fs) h
  | .namedTuple fs =>
    have hx : validBatchFields fs = true := by simpa [validBatch] using h
    obtain ⟨out, hout, hfa⟩ := mapStructureFields_valid fs hx
    refine ⟨.dict out, ?_, ?_⟩
    · simp [tensor_spec_for_batch, mapStructure, hout]
    · simpa [batchLeaves, specLeaves] using hfa

/-- C5 witness: the theorem applied to the concrete valid batch
`example_batch`. -/
theorem tensor_spec_for_batch_valid_spec_witness :
    validBatch example_batch = true ∧
    ∃ s, tensor_spec_for_batch example_batch = some s ∧
      List.Forall₂ leafSpecOk (batchLeaves example_batch) (specLeaves s) :=
  ⟨by decide, tensor_spec_for_batch_valid_spec example_batch (by decide)⟩

/-- C4 counterexample: a zero-dimensional scalar leaf does NOT make
`tensor_spec_for_batch` fail.  `shape.dims[1:]` of a rank-0 tensor is
`[]`, so `_get_tensor_spec` happily returns the rank-1 spec
`TensorSpec(shape=[None])` and the deriver returns a signature. -/
theorem scalar_leaf_returns_spec_cex :
    tensor_spec_for_batch scalar_batch
        = some (.leaf ⟨.float32, [none]⟩) ∧
    tensor_spec_for_batch scalar_batch ≠ none := by
  constructor
  · rfl
  · have hs : tensor_spec_for_batch scalar_batch
        = some (.leaf ⟨.float32, [none]⟩) := rfl
    intro hc
    rw [hs] at hc
    exact Option.noConfusion hc

/-- C4 (amended): `tensor_spec_for_batch` fails exactly on conversion
failure: for every input batch containing a leaf that
`tf.convert_to_tensor` cannot coerce into a tensor at all, it fails
rather than returning a signature.  (A zero-dimensional scalar leaf is
coercible and does not fail; it yields a rank-1 spec with the unbound
leading dimension - see the counterexample.) -/
theorem unconvertible_leaf_fails (b : Batch)
    (h : hasUnconvertibleLeaf b = true) :
    tensor_spec_for_batch b = none := by
  match b with
  | .leaf v => exact mapStructure_unconv (.leaf v) h
  | .listOf xs => exact mapStructure_unconv (.listOf xs) h
  | .dict fs => exact mapStructure_unconv (.dict fs) h
  | .namedTuple fs =>
    have hx : hasUnconvertibleLeafFields fs = true := by
      simpa [hasUnconvertibleLeaf] using h
    show mapStructure (.dict fs) = none
    simp [mapStructure, mapStructureFields_unconv fs hx]

/-- C4 witness: the amended theorem applied to a concrete batch with an
unconvertible leaf. -/
theorem unconvertible_leaf_fails_witness :
    hasUnconvertibleLeaf unconvertible_batch = true ∧
    tensor_spec_for_batch unconvertible_batch = none :=
  ⟨by decide, unconvertible_leaf_fails unconvertible_batch (by decide)⟩

/-- C10: for every named-tuple-like dummy batch whose fields all derive,
the returned signature is a field-keyed mapping (a dict), not a named
tuple - the top-level container kind changes - while the field names and
the per-field signatures are exactly preserved. -/
theorem named_tuple_becomes_dict (fields : List (String × Batch))
    (out : List (String × Spec))
    (h : mapStructureFields fields = some out) :
    tensor_spec_for_batch (.namedTuple fields) = some (.dict out) ∧
    out.map Prod.fst = fields.map Prod.fst ∧
    List.Forall₂ (fun p q => mapStructure p.2 = some q.2) fields out ∧
    ∀ gs, Spec.dict out ≠ Spec.namedTuple gs := by
  obtain ⟨hn, hfa⟩ := mapStructureFields_names fields out h
  refine ⟨?_, hn, hfa, ?_⟩
  · simp [tensor_spec_for_batch, mapStructure, h]
  · intro gs hc
    exact Spec.noConfusion hc

/-- C10 witness: the theorem applied to a concrete named-tuple batch. -/
theorem named_tuple_becomes_dict_witness :
    mapStructureFields example_named_tuple_fields
        = some example_named_tuple_out ∧
    tensor_spec_for_batch (.namedTuple example_named_tuple_fields)
        = some (.dict example_named_tuple_out) ∧
    example_named_tuple_out.map Prod.fst
        = example_named_tuple_fields.map Prod.fst ∧
    List.Forall₂ (fun p q => mapStructure p.2 = some q.2)
        example_named_tuple_fields example_named_tuple_out ∧
    ∀ gs, Spec.dict example_named_tuple_out ≠ Spec.namedTuple gs :=
  ⟨rfl, named_tuple_becomes_dict example_named_tuple_fields
    example_named_tuple_out rfl⟩

/-- C1 (amended): when `GanFnsAndTypes` is constructed with
`train_discriminator_dp_average_query = None`, the selected
`aggregation_process` is the one `MeanFactory().create(value_type,
weight_type)` returns: it is WEIGHTED (`is_weighted = true`, not false as
the claim states) with a float32 weight type, and for every aggregation
state and every set of per-client deltas its next step CONSUMES the
supplied per-client weights and returns their weighted mean
sum(w_i * delta_i) / sum(w_i) with the state passed through unchanged;
this equals the arithmetic mean of the client deltas exactly when the
supplied weights are uniform and nonzero. -/
theorem mean_aggregation_selected_weighted {Q : Type}
    (cfg : GanFnsAndTypesInit Q) (h : validCfg cfg)
    (hq : cfg.train_discriminator_dp_average_query = none) :
    (attrs_post_init cfg).map (fun g => g.aggregation_process.is_weighted)
        = .ok true ∧
    (attrs_post_init cfg).map (fun g => g.aggregation_process.weight_type)
        = .ok (some float32_type) ∧
    selected_process (σ := Unit) (π := Unit) none = ⟨Unit, mean_process⟩ ∧
    (∀ (st : Unit) (vals : List Vec) (ws : List ℚ),
      aggregation_step mean_process st vals ws
        = .ok (st, weighted_mean vals ws)) ∧
    (∀ (vals : List Vec) (w : ℚ), w ≠ 0 →
      weighted_mean vals (List.replicate vals.length w)
        = arithmetic_mean vals) := by
  obtain ⟨hg1, hg2, hgc, hgk, hdc, hdk⟩ := h
  obtain ⟨s1, hs1⟩ := Option.isSome_iff_exists.mp hg1
  obtain ⟨s2, hs2⟩ := Option.isSome_iff_exists.mp hg2
  rw [attrs_post_init_ok cfg s1 s2 hs1 hs2 hgc hgk hdc hdk]
  refine ⟨?_, ?_, rfl, fun st vals ws => rfl, fun vals w hw =>
    weighted_mean_uniform vals w hw⟩ <;>
    simp [Except.map, derive_types, hq, MeanFactory_create]

/-- C1 witness: the theorem applied to the concrete configuration
`base_cfg` and concrete deltas with uniform weight 2. -/
theorem mean_aggregation_selected_weighted_witness :
    validCfg base_cfg ∧
    base_cfg.train_discriminator_dp_average_query = none ∧
    (attrs_post_init base_cfg).map
        (fun g => g.aggregation_process.is_weighted) = Except.ok true ∧
    weighted_mean [[1], [3]] (List.replicate (List.length [[1], [3]]) 2)
        = arithmetic_mean [[1], [3]] := by
  have hv : validCfg base_cfg := ⟨rfl, rfl, rfl, rfl, rfl, rfl⟩
  have h := mean_aggregation_selected_weighted base_cfg hv rfl
  exact ⟨hv, rfl, h.1, h.2.2.2.2 [[1], [3]] 2 (by norm_num)⟩

/-- C1 counterexample: with no privacy query the selected process is NOT
unweighted - its `is_weighted` flag is true - and the mean process's
`next` does not ignore the supplied per-client weights: on client deltas
[0] and [3] with weights 3 and 1 it returns the weighted mean [3/4], not
the arithmetic mean [3/2]. -/
theorem mean_aggregation_not_unweighted_cex :
    (attrs_post_init base_cfg).map
        (fun g => g.aggregation_process.is_weighted) = Except.ok true ∧
    ¬ ((attrs_post_init base_cfg).map
        (fun g => g.aggregation_process.is_weighted) = Except.ok false) ∧
    mean_next () [[0], [3]] [3, 1] = ((), [3 / 4]) ∧
    ¬ mean_next () [[0], [3]] [3, 1] = ((), arithmetic_mean [[0], [3]]) := by
  have h1 : (attrs_post_init base_cfg).map
      (fun g => g.aggregation_process.is_weighted) = Except.ok true := rfl
  refine ⟨h1, ?_, ?_, ?_⟩
  · rw [h1]
    intro hc
    exact absurd (Except.ok.inj hc) (by decide)
  · simp [mean_next, weighted_mean, total_weight, vsum, vadd, vsmul]
    norm_num
  · simp [mean_next, weighted_mean, arithmetic_mean, total_weight, vsum,
      vadd, vsmul]
    norm_num

/-- C2 (amended): with a privacy query supplied, the selected
`aggregation_process` is the differentially-private averaging process,
which is UNWEIGHTED (`is_weighted = false`, not true as the claim
states) and has no weight type; it is, as the claim says, parameterized
by the discriminator-weights type (its value type is `tff.to_type` of the
signature read off the constructed discriminator's weights).  Its
runtime counterpart `dp_process` is likewise unweighted. -/
theorem dp_aggregation_selected_unweighted {Q : Type}
    (cfg : GanFnsAndTypesInit Q) (q : Q) (h : validCfg cfg)
    (hq : cfg.train_discriminator_dp_average_query = some q) :
    (attrs_post_init cfg).map (fun g => g.aggregation_process.is_weighted)
        = .ok false ∧
    (attrs_post_init cfg).map (fun g => g.aggregation_process.weight_type)
        = .ok none ∧
    (attrs_post_init cfg).map (fun g => g.aggregation_process.value_type)
        = .ok (tff_to_type
            (vars_to_type ((cfg.discriminator_model_fn ()).weights))) ∧
    (attrs_post_init cfg).map (fun g => g.discriminator_weights_type)
        = .ok (vars_to_type ((cfg.discriminator_model_fn ()).weights)) ∧
    (∀ (T P : Type) (qs : DPQuerySem T P),
      (dp_process qs).is_weighted = false) := by
  obtain ⟨hg1, hg2, hgc, hgk, hdc, hdk⟩ := h
  obtain ⟨s1, hs1⟩ := Option.isSome_iff_exists.mp hg1
  obtain ⟨s2, hs2⟩ := Option.isSome_iff_exists.mp hg2
  rw [attrs_post_init_ok cfg s1 s2 hs1 hs2 hgc hgk hdc hdk]
  refine ⟨?_, ?_, ?_, ?_, fun T P qs => rfl⟩ <;>
    simp [Except.map, derive_types, hq, DifferentiallyPrivateFactory_create]

/-- C2 witness: the theorem applied to the concrete configuration
`dp_cfg` whose query is the number 7. -/
theorem dp_aggregation_selected_unweighted_witness :
    validCfg dp_cfg ∧
    dp_cfg.train_discriminator_dp_average_query = some 7 ∧
    (attrs_post_init dp_cfg).map
        (fun g => g.aggregation_process.is_weighted) = Except.ok false := by
  have hv : validCfg dp_cfg := ⟨rfl, rfl, rfl, rfl, rfl, rfl⟩
  have h := dp_aggregation_selected_unweighted dp_cfg 7 hv rfl
  exact ⟨hv, rfl, h.1⟩

/-- C2 counterexample: on the concrete configuration with a query, the
selected process's `is_weighted` flag is false, not true as the claim
states, and it has no weight type (`DifferentiallyPrivateFactory
.create` is invoked with a value type only, line 143-145). -/
theorem dp_aggregation_not_weighted_cex :
    (attrs_post_init dp_cfg).map
        (fun g => g.aggregation_process.is_weighted) = Except.ok false ∧
    ¬ ((attrs_post_init dp_cfg).map
        (fun g => g.aggregation_process.is_weighted) = Except.ok true) ∧
    (attrs_post_init dp_cfg).map
        (fun g => g.aggregation_process.weight_type.isSome)
        = Except.ok false := by
  have h1 : (attrs_post_init dp_cfg).map
      (fun g => g.aggregation_process.is_weighted) = Except.ok false := rfl
  refine ⟨h1, ?_, rfl⟩
  rw [h1]
  intro hc
  exact absurd (Except.ok.inj hc) (by decide)

/-- C3 (amended): if a factory returns a callable object that is not a
`tf.keras.models.Model`, construction fails immediately with a
configuration-time `TypeError` - but the raised error reports only the
found object's type ("Expected tf.keras.models.Model, found ..."), and
does NOT identify which factory is at fault: the generator and
discriminator checks raise the identical message (see the
counterexample). -/
theorem model_validation_type_error {Q : Type}
    (cfg : GanFnsAndTypesInit Q) (s1 s2 : Spec)
    (h1 : tensor_spec_for_batch cfg.dummy_gen_input = some s1)
    (h2 : tensor_spec_for_batch cfg.dummy_real_data = some s2) :
    ((cfg.generator_model_fn ()).callable = true →
      (cfg.generator_model_fn ()).isKerasModel = false →
      attrs_post_init cfg
        = .error (expected_model_msg
            (cfg.generator_model_fn ()).typeName)) ∧
    ((cfg.generator_model_fn ()).callable = true →
      (cfg.generator_model_fn ()).isKerasModel = true →
      (cfg.discriminator_model_fn ()).callable = true →
      (cfg.discriminator_model_fn ()).isKerasModel = false →
      attrs_post_init cfg
        = .error (expected_model_msg
            (cfg.discriminator_model_fn ()).typeName)) := by
  constructor
  · intro hgc hgk
    unfold attrs_post_init
    rw [h1, h2]
    simp [hgc, hgk]
  · intro hgc hgk hdc hdk
    unfold attrs_post_init
    rw [h1, h2]
    simp [hgc, hgk, hdc, hdk]

/-- C3 witness: the amended theorem applied to the concrete
configuration whose generator factory returns a callable non-model. -/
theorem model_validation_type_error_witness :
    tensor_spec_for_batch bad_generator_cfg.dummy_gen_input
        = some example_batch_spec ∧
    (bad_generator_cfg.generator_model_fn ()).callable = true ∧
    (bad_generator_cfg.generator_model_fn ()).isKerasModel = false ∧
    attrs_post_init bad_generator_cfg
      = .error (expected_model_msg
          (bad_generator_cfg.generator_model_fn ()).typeName) := by
  have h := model_validation_type_error bad_generator_cfg
    example_batch_spec example_batch_spec rfl rfl
  exact ⟨rfl, rfl, rfl, h.1 rfl rfl⟩

/-- C3 counterexample: the error does not name the offending factory.
Two configurations - one whose generator factory is at fault, one whose
discriminator factory is at fault, the bad object being the same
callable non-model - fail with the byte-identical error value, so the
raised error cannot identify that the generator (resp. discriminator)
factory was the offender. -/
theorem model_validation_error_anonymous_cex :
    attrs_post_init bad_generator_cfg
      = .error "TypeError: Expected tf.keras.models.Model, found function." ∧
    attrs_post_init bad_discriminator_cfg
      = .error "TypeError: Expected tf.keras.models.Model, found function." := by
  exact ⟨rfl, rfl⟩

/-- C9: construction never validates the supplied privacy query.  `Q` is
an arbitrary type - the query need satisfy no interface at all (the
`attr.ib(type=tensorflow_privacy.DPQuery)` annotation is not enforced,
and the documented `NormalizedQuery` requirement is not checked) - yet
`__attrs_post_init__` succeeds and passes exactly that object,
uninspected, to `DifferentiallyPrivateFactory`, which records it in the
aggregation process. -/
theorem dp_query_unvalidated_passthrough {Q : Type} (q : Q)
    (cfg : GanFnsAndTypesInit Q) (h : validCfg cfg)
    (hq : cfg.train_discriminator_dp_average_query = some q) :
    (attrs_post_init cfg).map (fun g => g.aggregation_process.dp_query)
        = .ok (some q) := by
  obtain ⟨hg1, hg2, hgc, hgk, hdc, hdk⟩ := h
  obtain ⟨s1, hs1⟩ := Option.isSome_iff_exists.mp hg1
  obtain ⟨s2, hs2⟩ := Option.isSome_iff_exists.mp hg2
  rw [attrs_post_init_ok cfg s1 s2 hs1 hs2 hgc hgk hdc hdk]
  simp [Except.map, derive_types, hq, DifferentiallyPrivateFactory_create]

/-- C9 witness: the theorem applied to a configuration whose "query" is
the plain string "not a DPQuery at all". -/
theorem dp_query_unvalidated_passthrough_witness :
    validCfg string_query_cfg ∧
    string_query_cfg.train_discriminator_dp_average_query
        = some ("not a DPQuery at all") ∧
    (attrs_post_init string_query_cfg).map
        (fun g => g.aggregation_process.dp_query)
        = Except.ok (some ("not a DPQuery at all")) := by
  have hv : validCfg string_query_cfg := ⟨rfl, rfl, rfl, rfl, rfl, rfl⟩
  exact ⟨hv, rfl,
    dp_query_unvalidated_passthrough ("not a DPQuery at all")
      string_query_cfg hv rfl⟩

/-- C6: the orchestrator's aggregation call (lines 281-289) inspects the
process's `is_weighted` flag and calls `next` with the per-client
update weights exactly when the flag is true, and without any weight
argument when it is false; no other form of invocation occurs (the
dispatch always matches the process's arity, so the call never raises),
and consequently `run_one_round` never fails on the aggregation call for
any process. -/
theorem aggregation_dispatch_by_weighted_flag {σ Δ : Type}
    (p : AggProcess σ Δ) (st : σ) (vals : List Δ) (ws : List ℚ) :
    (p.is_weighted = true →
      aggregation_step p st vals ws = p.call_next st vals (some ws)) ∧
    (p.is_weighted = false →
      aggregation_step p st vals ws = p.call_next st vals none) ∧
    (∃ r, aggregation_step p st vals ws = .ok r) ∧
    (∀ (G D C GIn RD SGIn : Type) (_ : Add C) (_ : Zero C)
      (cc : GIn → RD → FromServer G D → ClientOutput Δ C)
      (sc : ServerState G D C σ → SGIn → ClientOutput Δ C → σ →
        ServerState G D C σ)
      (ss : ServerState G D C σ) (sgi : SGIn)
      (cgi : List GIn) (crd : List RD),
      ∃ out, run_one_round p cc sc ss sgi cgi crd = .ok out) := by
  cases p with
  | weighted i next =>
    refine ⟨fun _ => rfl, fun hc => ?_, ⟨next st vals ws, rfl⟩, ?_⟩
    · exact absurd hc (by simp [AggProcess.is_weighted])
    · intro G D C GIn RD SGIn ia iz cc sc ss sgi cgi crd
      exact ⟨_, rfl⟩
  | unweighted i next =>
    refine ⟨fun hc => ?_, fun _ => rfl, ⟨next st vals, rfl⟩, ?_⟩
    · exact absurd hc (by simp [AggProcess.is_weighted])
    · intro G D C GIn RD SGIn ia iz cc sc ss sgi cgi crd
      exact ⟨_, rfl⟩

/-- C6 witness: the theorem applied to the weighted mean process at
concrete state, deltas and weights. -/
theorem aggregation_dispatch_by_weighted_flag_witness :
    mean_process.is_weighted = true ∧
    aggregation_step mean_process () [[2], [4]] [1, 1]
      = mean_process.call_next () [[2], [4]] (some [1, 1]) :=
  ⟨rfl, (aggregation_dispatch_by_weighted_flag mean_process () [[2], [4]]
    [1, 1]).1 rfl⟩

/-- C7: the initialization computation (lines 253-262) produces the
complete initial `ServerState` by invoking the server-initial-state
computation (which instantiates models via the two factories) and
merging in `aggregation_process.initialize()` as the `aggregation_state`
field, leaving the generator weights, discriminator weights and counters
exactly as `server_initial_state` returned them. -/
theorem fed_server_initial_state_merges {G D C A₀ σ Δ : Type}
    (gfn dfn : Unit → PyObject)
    (server_initial_state : PyObject → PyObject → ServerState G D C A₀)
    (p : AggProcess σ Δ) :
    (fed_server_initial_state gfn dfn server_initial_state p).generator_weights
        = (server_initial_state (gfn ()) (dfn ())).generator_weights ∧
    (fed_server_initial_state gfn dfn server_initial_state p).discriminator_weights
        = (server_initial_state (gfn ()) (dfn ())).discriminator_weights ∧
    (fed_server_initial_state gfn dfn server_initial_state p).counters
        = (server_initial_state (gfn ()) (dfn ())).counters ∧
    (fed_server_initial_state gfn dfn server_initial_state p).aggregation_state
        = p.init_state :=
  ⟨rfl, rfl, rfl, rfl⟩

/-- C8: in every round every client receives the identical `FromServer`
payload (the broadcast is a replication of one value), and that payload
consists of exactly the `generator_weights` and `discriminator_weights`
fields of the input server state - the `FromServer` record has no other
field, so neither counters nor aggregation state are broadcast; the
client computations are all applied to that same payload. -/
theorem broadcast_identical_payloads {G D C A GIn RD Δ : Type}
    (cc : GIn → RD → FromServer G D → ClientOutput Δ C)
    (ss : ServerState G D C A) (n : Nat)
    (cgi : List GIn) (crd : List RD) :
    round_client_inputs ss n = List.replicate n
      { generator_weights := ss.generator_weights,
        discriminator_weights := ss.discriminator_weights } ∧
    round_client_outputs cc ss cgi crd
      = federated_map3 cc cgi crd (List.replicate cgi.length
        { generator_weights := ss.generator_weights,
          discriminator_weights := ss.discriminator_weights }) :=
  ⟨rfl, rfl⟩
